import Mathlib

/-!
Shallow embedding of the pybind11 visualizer binding (`_viz.cpp`).

The binding validates numpy buffers with `check_array`, marshals RGBA tuples
with `tuple_to_float_array`, and drives the render loop in `PointViz.run`,
which checks the running flag and pending signals only between batches of
`check_every = 10` calls to `run_once`.  The numeric contents of buffers are
never inspected by the binding, so scalar values are carried opaquely as `Val`.
-/

namespace Viz

/-- Scalar buffer contents.  The binding only copies values, never computes
with them, so they are carried opaquely. -/
abbrev Val := Int

/-- Exceptions thrown by the binding: `std::invalid_argument` surfaces as an
input error (Python `ValueError`), `py::type_error` as a type error. -/
inductive VizErr where
  | invalidArgument (msg : String)
  | typeError (msg : String)
deriving DecidableEq

/-- A numpy array as seen by the binding: a shape, flat element data, and the
C/F contiguity flags. -/
structure PyArray where
  shape : List Nat
  data : List Val
  cContig : Bool
  fContig : Bool
deriving DecidableEq

/-- `array.size()`: the number of elements, the product of the shape. -/
def PyArray.size (a : PyArray) : Nat := a.shape.prod

/-- `array.ndim()`: the number of dimensions. -/
def PyArray.ndim (a : PyArray) : Nat := a.shape.length

/-- `array.shape(i)`: the extent of dimension `i`. -/
def PyArray.shapeAt (a : PyArray) (i : Nat) : Nat := a.shape.getD i 0

/-- `check_array(array, size, dims, storage)`: size check (skipped when the
expected `size` is 0), dimension check (skipped when `dims` is 0), then the
requested contiguity check.  All failures throw `std::invalid_argument`. -/
def check_array (a : PyArray) (size dims : Nat) (storage : Char) :
    Except VizErr Unit :=
  if size ≠ 0 ∧ a.size ≠ size then
    Except.error (VizErr.invalidArgument ("Expected array of size: " ++ toString size))
  else if dims ≠ 0 ∧ a.ndim ≠ dims then
    Except.error (VizErr.invalidArgument ("Expected an array of dimension: " ++ toString dims))
  else if storage = 'F' ∧ a.fContig = false then
    Except.error (VizErr.invalidArgument "Expected a F_CONTIGUOUS array")
  else if storage = 'C' ∧ a.cContig = false then
    Except.error (VizErr.invalidArgument "Expected a C_CONTIGUOUS array")
  else Except.ok ()

/-- The condition under which `check_array` succeeds, as a boolean. -/
def checkOk (a : PyArray) (size dims : Nat) (storage : Char) : Bool :=
  decide ((size = 0 ∨ a.size = size) ∧ (dims = 0 ∨ a.ndim = dims) ∧
    (storage = 'F' → a.fContig = true) ∧ (storage = 'C' → a.cContig = true))

/-- `true` iff the computation succeeded. -/
def excOk {α : Type} : Except VizErr α → Bool
  | Except.ok _ => true
  | Except.error _ => false

/-- `true` iff the computation threw `std::invalid_argument`. -/
def inputErr {α : Type} : Except VizErr α → Bool
  | Except.error (VizErr.invalidArgument _) => true
  | _ => false

/-- `true` iff the computation threw `py::type_error`. -/
def typeErr {α : Type} : Except VizErr α → Bool
  | Except.error (VizErr.typeError _) => true
  | _ => false

/-- The state a caller observes after a setter: the updated object on success,
the prior object when the setter threw (C++ `throw` happens before any
mutation of the receiving object). -/
def afterExc {α : Type} (x : α) : Except VizErr α → α
  | Except.ok y => y
  | Except.error _ => x

/-- The state of a `viz::Cloud` as far as the binding can influence it:
fixed point count `n` and pose count `w` plus the buffers the setters copy in.
The renderer-side object lives in the out-of-repository ouster library;
its buffer fields are modelled from the spec (per-point range/key, `4n` mask,
`3n` xyz, `N x 3` palette, per-pixel direction/offset and an extrinsic). -/
structure Cloud where
  n : Nat
  w : Nat
  direction : List Val
  offset : List Val
  extrinsic : List Val
  range : List Val
  key : List Val
  mask : List Val
  xyz : List Val
  pose : List Val
  palette : List Val
  paletteN : Nat
deriving DecidableEq

/-- The identity `mat4d`, column-major (the default global pose of a cloud,
modelled from the spec: a 4x4 homogeneous transform, identity until set). -/
def mat4dIdentity : List Val :=
  [1, 0, 0, 0, 0, 1, 0, 0, 0, 0, 1, 0, 0, 0, 0, 1]

/-- Modelled from the spec: `viz::Cloud::get_size()` returns the fixed point
count `n` chosen at construction. -/
def Cloud.get_size (c : Cloud) : Nat := c.n

/-- Modelled from the spec: the unstructured constructor `viz::Cloud{n}` makes
a cloud of `n` points with one pose per point (`w = n`) and no precomputed
geometry; xyz must be supplied via the setter. -/
def Cloud.initUnstructured (n : Nat) : Cloud :=
  { n := n, w := n, direction := [], offset := [], extrinsic := [],
    range := [], key := [], mask := [], xyz := [], pose := mat4dIdentity,
    palette := [], paletteN := 0 }

/-- The xyz lookup table: per-pixel direction and offset components. -/
structure XYZLut where
  direction : List Val
  offset : List Val
deriving DecidableEq

/-- Sensor metadata (`sensor::sensor_info`): frame geometry, the extrinsic
calibration matrix, and the data from which `make_xyz_lut` builds its table.
The trigonometric derivation lives in the out-of-repository ouster library,
so the two components of the resulting table are carried abstractly. -/
structure SensorInfo where
  columns_per_frame : Nat
  pixels_per_column : Nat
  extrinsic : List Val
  lutDirection : List Val
  lutOffset : List Val
deriving DecidableEq

/-- Modelled from the spec: `make_xyz_lut(info)` (ouster library, not in this
repository) returns the calibration-derived table with a direction component
and an offset component. -/
def make_xyz_lut (info : SensorInfo) : XYZLut :=
  { direction := info.lutDirection, offset := info.lutOffset }

/-- The structured `Cloud.__init__(self, metadata)` binding: builds the xyz
lookup table, casts its components to float, copies the extrinsic matrix, and
constructs `viz::Cloud{w, h, direction, offset, extrinsic}` with `n = w * h`.
Both `direction` and `offset` are read from `xyz_lut.direction` here, exactly
as in the source (`_viz.cpp` lines 264-267). -/
def Cloud.initStructured (info : SensorInfo) : Cloud :=
  let xyz_lut := make_xyz_lut info
  let direction := xyz_lut.direction
  let offset := xyz_lut.direction
  { n := info.columns_per_frame * info.pixels_per_column
    w := info.columns_per_frame
    direction := direction
    offset := offset
    extrinsic := info.extrinsic.take 16
    range := [], key := [], mask := [], xyz := [], pose := mat4dIdentity,
    palette := [], paletteN := 0 }

/-- `Cloud.set_range`: `check_array(range, get_size(), 2, 'C')`, then copy the
`n` range values into the cloud. -/
def Cloud.set_range (c : Cloud) (a : PyArray) : Except VizErr Cloud :=
  match check_array a c.get_size 2 'C' with
  | Except.error e => Except.error e
  | Except.ok _ => Except.ok { c with range := a.data.take c.get_size }

/-- `Cloud.set_key`: `check_array(key, get_size(), 0, 'C')`, then copy the `n`
key values. -/
def Cloud.set_key (c : Cloud) (a : PyArray) : Except VizErr Cloud :=
  match check_array a c.get_size 0 'C' with
  | Except.error e => Except.error e
  | Except.ok _ => Except.ok { c with key := a.data.take c.get_size }

/-- `Cloud.set_mask`: `check_array(mask, get_size() * 4, 0, 'C')`, then a
dimension check admitting 2-d or 3-d arrays, then copy the `4n` mask values. -/
def Cloud.set_mask (c : Cloud) (a : PyArray) : Except VizErr Cloud :=
  match check_array a (c.get_size * 4) 0 'C' with
  | Except.error e => Except.error e
  | Except.ok _ =>
    if a.ndim ≠ 2 ∧ a.ndim ≠ 3 then
      Except.error (VizErr.invalidArgument "Expected an array of dimensions: 2 or 3")
    else Except.ok { c with mask := a.data.take (c.get_size * 4) }

/-- `Cloud.set_xyz`: `check_array(xyz, get_size() * 3, 0)` (no contiguity
requirement), then copy the `3n` coordinates. -/
def Cloud.set_xyz (c : Cloud) (a : PyArray) : Except VizErr Cloud :=
  match check_array a (c.get_size * 3) 0 'X' with
  | Except.error e => Except.error e
  | Except.ok _ => Except.ok { c with xyz := a.data.take (c.get_size * 3) }

/-- `Cloud.set_palette`: `check_array(buf, 0, 2, 'C')`, then require the second
dimension to be exactly 3, then install the `shape(0)` palette entries. -/
def Cloud.set_palette (c : Cloud) (a : PyArray) : Except VizErr Cloud :=
  match check_array a 0 2 'C' with
  | Except.error e => Except.error e
  | Except.ok _ =>
    if a.shapeAt 1 ≠ 3 then
      Except.error (VizErr.invalidArgument "Expected a N x 3 array")
    else Except.ok { c with palette := a.data.take (a.shapeAt 0 * 3),
                            paletteN := a.shapeAt 0 }

/-- `Cloud.set_pose`: `check_array(pose, 16, 2, 'F')`, then copy the 16
matrix entries into the cloud's global pose.  (The `pymatrixd` argument type
carries `forcecast | f_style`, so the array pybind hands to the lambda is
already column-major; the embedding checks the flags of the array as
presented, and size/dimension failures remain reachable.) -/
def Cloud.set_pose (c : Cloud) (a : PyArray) : Except VizErr Cloud :=
  match check_array a 16 2 'F' with
  | Except.error e => Except.error e
  | Except.ok _ => Except.ok { c with pose := a.data.take 16 }

/-- The state of a `viz::Image` the binding can influence: the scalar buffer
with its width/height and the optional RGBA mask (modelled from the spec; the
renderer-side object is in the out-of-repository ouster library). -/
structure Image where
  w : Nat
  h : Nat
  data : List Val
  maskW : Nat
  maskH : Nat
  mask : List Val
deriving DecidableEq

/-- `Image.set_image`: `check_array(image, 0, 2, 'C')`, then
`set_image(shape(1), shape(0), data)`. -/
def Image.set_image (im : Image) (a : PyArray) : Except VizErr Image :=
  match check_array a 0 2 'C' with
  | Except.error e => Except.error e
  | Except.ok _ =>
    Except.ok { im with w := a.shapeAt 1, h := a.shapeAt 0,
                        data := a.data.take (a.shapeAt 0 * a.shapeAt 1) }

/-- `Image.set_mask`: `check_array(buf, 0, 3, 'C')`, then require the third
dimension to be exactly 4, then `set_mask(shape(1), shape(0), data)`. -/
def Image.set_mask (im : Image) (a : PyArray) : Except VizErr Image :=
  match check_array a 0 3 'C' with
  | Except.error e => Except.error e
  | Except.ok _ =>
    if a.shapeAt 2 ≠ 4 then
      Except.error (VizErr.invalidArgument "Expected a M x N x 4 array")
    else Except.ok { im with
      maskW := a.shapeAt 1, maskH := a.shapeAt 0,
      mask := a.data.take (a.shapeAt 0 * a.shapeAt 1 * 4) }

/-- The validation `Cloud.set_range` performs, as a predicate. -/
def rangeValid (c : Cloud) (a : PyArray) : Bool := checkOk a c.get_size 2 'C'

/-- The validation `Cloud.set_key` performs, as a predicate. -/
def keyValid (c : Cloud) (a : PyArray) : Bool := checkOk a c.get_size 0 'C'

/-- The validation `Cloud.set_mask` performs, as a predicate. -/
def maskValid (c : Cloud) (a : PyArray) : Bool :=
  checkOk a (c.get_size * 4) 0 'C' && (a.ndim == 2 || a.ndim == 3)

/-- The validation `Cloud.set_xyz` performs, as a predicate. -/
def xyzValid (c : Cloud) (a : PyArray) : Bool := checkOk a (c.get_size * 3) 0 'X'

/-- The validation `Cloud.set_palette` performs, as a predicate. -/
def paletteValid (a : PyArray) : Bool :=
  checkOk a 0 2 'C' && (a.shapeAt 1 == 3)

/-- The validation `Cloud.set_pose` and `Cuboid.set_transform` perform on
their 4x4 pose array, as a predicate. -/
def poseValid (a : PyArray) : Bool := checkOk a 16 2 'F'

/-- The validation `Image.set_image` performs, as a predicate. -/
def imageValid (a : PyArray) : Bool := checkOk a 0 2 'C'

/-- The validation `Image.set_mask` performs, as a predicate. -/
def imageMaskValid (a : PyArray) : Bool :=
  checkOk a 0 3 'C' && (a.shapeAt 2 == 4)

/-- How the render loop exited: `normal` by falling out of the `while` (the
running flag read false, e.g. after `running(false)` or a window close),
`cancelled` by `throw py::error_already_set()` after `PyErr_CheckSignals()`
reported a pending signal. -/
inductive RunExit where
  | normal
  | cancelled
deriving DecidableEq

/-- `check_every`: the batch size of `run()`; the running flag and pending
signals are examined once per `check_every` calls to `run_once`. -/
def check_every : Nat := 10

/-- The `while` loop of `PointViz.run`, as a fuelled recursion.  Time is
counted in completed frame-steps (`run_once` calls): `flag u` is the value of
the cross-thread `running` flag when `u` frames have completed, and `sig u`
tells whether `PyErr_CheckSignals()` would report a pending signal then.
Each iteration reads the flag (exiting normally when false), then checks
signals (throwing `cancelled`, leaving the frame counter and the
window-visibility state as they are), then runs a batch of `check_every`
frame-steps.  `none` means the fuel ran out before the loop exited. -/
def loopAux (flag sig : Nat → Bool) :
    Nat → Nat → Bool → Option (Nat × Bool × RunExit)
  | 0, _, _ => none
  | fuel + 1, frames, vis =>
    if flag frames then
      if sig frames then some (frames, vis, RunExit.cancelled)
      else loopAux flag sig fuel (frames + check_every) vis
    else some (frames, vis, RunExit.normal)

/-- `PointViz.run`: `self.visible(true)` at entry, then the loop; the trailing
`self.visible(false)` executes only when the loop falls out of the `while`
normally — the cancellation `throw` propagates past it.  The result carries
the total frame count, the final visibility flag, and the exit kind.
(`self.running(true)` at entry is subsumed by the `flag` stream, which any
thread may overwrite afterwards.) -/
def run (flag sig : Nat → Bool) (fuel : Nat) : Option (Nat × Bool × RunExit) :=
  match loopAux flag sig fuel 0 true with
  | none => none
  | some (f, _, RunExit.normal) => some (f, false, RunExit.normal)
  | some (f, v, RunExit.cancelled) => some (f, v, RunExit.cancelled)

/-- `true` on the cancellation exit. -/
def isCancelled : RunExit → Bool
  | RunExit.cancelled => true
  | RunExit.normal => false

/-- `true` on the normal exit. -/
def isNormalExit : RunExit → Bool
  | RunExit.normal => true
  | RunExit.cancelled => false

/-- The loop exited (did not run out of fuel) having completed fewer than
`bound` frame-steps. -/
def exitsWithin (o : Option (Nat × Bool × RunExit)) (bound : Nat) : Bool :=
  match o with
  | none => false
  | some (f, _, _) => decide (f < bound)

/-- Exit-point invariant of `run`: the loop exits only at batch boundaries
(the frame count is a multiple of `check_every`), it exits cancelled exactly
when the flag still read true and a signal was pending there, and it exits
normally exactly when the flag read false — in which case the signal state is
never consulted. -/
def exitInvariant (flag sig : Nat → Bool)
    (o : Option (Nat × Bool × RunExit)) : Bool :=
  match o with
  | none => true
  | some (f, _, r) =>
    decide (f % check_every = 0) && (isCancelled r == (flag f && sig f)) &&
      (isNormalExit r == !flag f)

/-- Visibility invariant of `run`: the window-visibility flag set true at
entry is still true after a cancelled exit and false after a normal exit. -/
def visibleInvariant (o : Option (Nat × Bool × RunExit)) : Bool :=
  match o with
  | none => true
  | some (_, v, r) => v == isCancelled r

/-- A Python object handed over in an RGBA tuple: either it casts to float or
`cast<float>()` throws `py::cast_error`. -/
inductive PyObj where
  | asFloat (v : Val)
  | notFloat (s : String)
deriving DecidableEq

/-- `tuple[i].cast<float>()`; `none` when the cast throws. -/
def PyObj.castFloat : PyObj → Option Val
  | PyObj.asFloat v => some v
  | PyObj.notFloat _ => none

/-- The copying loop of `tuple_to_float_array`: the cast of each tuple element
overwrites the corresponding leading entry of `dst`, left to right, and the
first failing cast throws the type error.  Entries of `dst` beyond the tuple
length keep their default values.  (The `[]`/`_ :: _` case cannot be reached
under the size guard.) -/
def fillFrom : List Val → List PyObj → Except VizErr (List Val)
  | dst, [] => Except.ok dst
  | [], _ :: _ => Except.ok []
  | _ :: ds, o :: os =>
    match o.castFloat with
    | none => Except.error (VizErr.typeError "Expected a tuple of floats")
    | some v =>
      match fillFrom ds os with
      | Except.error e => Except.error e
      | Except.ok rest => Except.ok (v :: rest)

/-- `tuple_to_float_array(dst, tuple)`: tuples longer than `dst` throw
`std::invalid_argument`; otherwise the elements are cast into `dst`. -/
def tuple_to_float_array (dst : List Val) (t : List PyObj) :
    Except VizErr (List Val) :=
  if dst.length < t.length then
    Except.error (VizErr.invalidArgument
      ("Expected a tuple of size <= " ++ toString dst.length))
  else fillFrom dst t

/-- The default RGBA color `{0.0, 0.0, 0.0, 1.0}` that both `Cuboid` and
`Label` color setters start from. -/
def rgbaDefault : List Val := [0, 0, 0, 1]

/-- The state of a `viz::Cuboid` the binding can influence: a pose matrix and
an RGBA color (the renderer-side object is in the out-of-repository ouster
library). -/
structure Cuboid where
  pose : List Val
  rgba : List Val
deriving DecidableEq

/-- `Cuboid.__init__(pose, rgba)`: `check_array(pose, 16, 2, 'F')`, fill the
default color array from the tuple, then construct the cuboid. -/
def Cuboid.init (pose : PyArray) (t : List PyObj) : Except VizErr Cuboid :=
  match check_array pose 16 2 'F' with
  | Except.error e => Except.error e
  | Except.ok _ =>
    match tuple_to_float_array rgbaDefault t with
    | Except.error e => Except.error e
    | Except.ok ar => Except.ok { pose := pose.data.take 16, rgba := ar }

/-- `Cuboid.set_rgba`: fill a fresh default color array from the tuple, then
install it. -/
def Cuboid.set_rgba (cub : Cuboid) (t : List PyObj) : Except VizErr Cuboid :=
  match tuple_to_float_array rgbaDefault t with
  | Except.error e => Except.error e
  | Except.ok ar => Except.ok { cub with rgba := ar }

/-- `Cuboid.set_transform`: `check_array(pose, 16, 2, 'F')`, then copy the 16
matrix entries into the cuboid's pose (same `pymatrixd` marshalling as
`Cloud.set_pose`). -/
def Cuboid.set_transform (cub : Cuboid) (a : PyArray) : Except VizErr Cuboid :=
  match check_array a 16 2 'F' with
  | Except.error e => Except.error e
  | Except.ok _ => Except.ok { cub with pose := a.data.take 16 }

/-- The state of a `viz::Label` the claims touch: text and color (modelled
from the spec for the out-of-repository renderer object). -/
structure Label where
  text : String
  rgba : List Val
deriving DecidableEq

/-- `Label.set_rgba`: same marshalling as the cuboid color setter. -/
def Label.set_rgba (lab : Label) (t : List PyObj) : Except VizErr Label :=
  match tuple_to_float_array rgbaDefault t with
  | Except.error e => Except.error e
  | Except.ok ar => Except.ok { lab with rgba := ar }

/-- Concrete inputs used by witnesses and counterexamples. -/
def cloudW : Cloud := Cloud.initUnstructured 2

/-- A cloud with zero points (the unstructured constructor accepts any `n`). -/
def cloud0 : Cloud := Cloud.initUnstructured 0

/-- A cloud with a single point. -/
def cloud1 : Cloud := Cloud.initUnstructured 1

/-- An empty image. -/
def imageW : Image := { w := 0, h := 0, data := [], maskW := 0, maskH := 0, mask := [] }

/-- A 1-d, non-contiguous, 5-element array: invalid for every cloud setter of
`cloudW`. -/
def arrOdd : PyArray := { shape := [5], data := [1, 2, 3, 4, 5], cContig := false, fContig := false }

/-- A 1-d C-contiguous array holding exactly `cloudW.n = 2` values. -/
def arrRow2 : PyArray := { shape := [2], data := [11, 12], cContig := true, fContig := true }

/-- A 1-d C-contiguous array of 3 coordinates (3 elements = `3 * cloud1.n`). -/
def arrXyz3 : PyArray := { shape := [3], data := [7, 8, 9], cContig := true, fContig := true }

/-- A 2-d C-contiguous `2 x 3` array (6 elements). -/
def arr23 : PyArray := { shape := [2, 3], data := [1, 2, 3, 4, 5, 6], cContig := true, fContig := false }

/-- A 1-d array: wrong dimensionality for a palette. -/
def arrPalBad : PyArray := { shape := [4], data := [1, 2, 3, 4], cContig := true, fContig := true }

/-- Sensor metadata whose lookup-table offset component differs from its
direction component. -/
def infoBug : SensorInfo :=
  { columns_per_frame := 1, pixels_per_column := 1, extrinsic := List.replicate 16 0,
    lutDirection := [1, 2, 3], lutOffset := [4, 5, 6] }

/-- A cuboid with the identity-like pose and color `(1,0,0,1)`. -/
def cuboid0 : Cuboid := { pose := List.replicate 16 0, rgba := [1, 0, 0, 1] }

/-- A label with the default color. -/
def label0 : Label := { text := "hello", rgba := [0, 0, 0, 1] }

/-- A valid `4 x 4` F-contiguous pose array. -/
def pose0 : PyArray := { shape := [4, 4], data := List.replicate 16 1, cContig := false, fContig := true }

/-- A 5-tuple of floats (one element too many for an RGBA color). -/
def tup5 : List PyObj :=
  [PyObj.asFloat 1, PyObj.asFloat 2, PyObj.asFloat 3, PyObj.asFloat 4, PyObj.asFloat 5]

/-- Three float components, missing the alpha. -/
def vals3 : List Val := [5, 6, 7]

/-- A 1-tuple whose only element does not cast to float. -/
def tupBad1 : List PyObj := [PyObj.notFloat "no"]

/-- A 5-tuple whose first element does not cast to float. -/
def tupBad5 : List PyObj :=
  [PyObj.notFloat "x", PyObj.asFloat 0, PyObj.asFloat 0, PyObj.asFloat 0, PyObj.asFloat 0]

theorem check_array_ok_iff (a : PyArray) (size dims : Nat) (storage : Char) :
    check_array a size dims storage = Except.ok () ↔
      checkOk a size dims storage = true := by
  unfold check_array checkOk
  rw [decide_eq_true_eq]
  split_ifs with h1 h2 h3 h4 <;> simp_all <;> tauto

theorem check_array_fail (a : PyArray) (size dims : Nat) (storage : Char)
    (h : checkOk a size dims storage = false) :
    ∃ m, check_array a size dims storage =
      Except.error (VizErr.invalidArgument m) := by
  cases hc : check_array a size dims storage with
  | ok u =>
    cases u
    rw [(check_array_ok_iff a size dims storage).mp hc] at h
    cases h
  | error e =>
    refine ⟨?_, ?_⟩
    · exact match e with
      | VizErr.invalidArgument m => m
      | VizErr.typeError m => m
    · revert hc
      unfold check_array
      split_ifs <;> intro hc <;> first
        | (cases hc; rfl)
        | (exact absurd hc (by simp))

theorem check_array_err_shape (a : PyArray) (size dims : Nat) (storage : Char) :
    check_array a size dims storage = Except.ok () ∨
      ∃ m, check_array a size dims storage =
        Except.error (VizErr.invalidArgument m) := by
  unfold check_array
  split_ifs <;> simp

theorem set_range_ok_iff (c : Cloud) (a : PyArray) :
    excOk (c.set_range a) = true ↔ checkOk a c.get_size 2 'C' = true := by
  rw [← check_array_ok_iff]
  cases h : check_array a c.get_size 2 'C' with
  | ok u => cases u; simp [Cloud.set_range, h, excOk]
  | error e => simp [Cloud.set_range, h, excOk]

theorem set_key_ok_iff (c : Cloud) (a : PyArray) :
    excOk (c.set_key a) = true ↔ checkOk a c.get_size 0 'C' = true := by
  rw [← check_array_ok_iff]
  cases h : check_array a c.get_size 0 'C' with
  | ok u => cases u; simp [Cloud.set_key, h, excOk]
  | error e => simp [Cloud.set_key, h, excOk]

theorem set_xyz_ok_iff (c : Cloud) (a : PyArray) :
    excOk (c.set_xyz a) = true ↔ checkOk a (c.get_size * 3) 0 'X' = true := by
  rw [← check_array_ok_iff]
  cases h : check_array a (c.get_size * 3) 0 'X' with
  | ok u => cases u; simp [Cloud.set_xyz, h, excOk]
  | error e => simp [Cloud.set_xyz, h, excOk]

theorem set_mask_ok_iff (c : Cloud) (a : PyArray) :
    excOk (c.set_mask a) = true ↔
      (checkOk a (c.get_size * 4) 0 'C' = true ∧ (a.ndim = 2 ∨ a.ndim = 3)) := by
  cases h : check_array a (c.get_size * 4) 0 'C' with
  | ok u =>
    cases u
    have hc := (check_array_ok_iff a (c.get_size * 4) 0 'C').mp h
    by_cases hd : a.ndim ≠ 2 ∧ a.ndim ≠ 3
    · simp [Cloud.set_mask, h, hd, excOk, hc]
    · simp [Cloud.set_mask, h, hd, excOk, hc]
      tauto
  | error e =>
    simp [Cloud.set_mask, h, excOk]
    intro hc
    rw [(check_array_ok_iff a (c.get_size * 4) 0 'C').mpr hc] at h
    cases h

theorem set_palette_ok_iff (c : Cloud) (a : PyArray) :
    excOk (c.set_palette a) = true ↔
      (checkOk a 0 2 'C' = true ∧ a.shapeAt 1 = 3) := by
  cases h : check_array a 0 2 'C' with
  | ok u =>
    cases u
    have hc := (check_array_ok_iff a 0 2 'C').mp h
    by_cases hd : a.shapeAt 1 = 3
    · simp [Cloud.set_palette, h, hd, excOk, hc]
    · simp [Cloud.set_palette, h, hd, excOk, hc]
  | error e =>
    constructor
    · intro hx
      simp [Cloud.set_palette, h, excOk] at hx
    · rintro ⟨hcc, -⟩
      rw [(check_array_ok_iff a 0 2 'C').mpr hcc] at h
      cases h

theorem set_image_ok_iff (im : Image) (a : PyArray) :
    excOk (im.set_image a) = true ↔ checkOk a 0 2 'C' = true := by
  rw [← check_array_ok_iff]
  cases h : check_array a 0 2 'C' with
  | ok u => cases u; simp [Image.set_image, h, excOk]
  | error e => simp [Image.set_image, h, excOk]

theorem image_set_mask_ok_iff (im : Image) (a : PyArray) :
    excOk (im.set_mask a) = true ↔
      (checkOk a 0 3 'C' = true ∧ a.shapeAt 2 = 4) := by
  cases h : check_array a 0 3 'C' with
  | ok u =>
    cases u
    have hc := (check_array_ok_iff a 0 3 'C').mp h
    by_cases hd : a.shapeAt 2 = 4
    · simp [Image.set_mask, h, hd, excOk, hc]
    · simp [Image.set_mask, h, hd, excOk, hc]
  | error e =>
    constructor
    · intro hx
      simp [Image.set_mask, h, excOk] at hx
    · rintro ⟨hcc, -⟩
      rw [(check_array_ok_iff a 0 3 'C').mpr hcc] at h
      cases h

theorem set_range_invalid (c : Cloud) (a : PyArray) (h : rangeValid c a = false) :
    inputErr (c.set_range a) = true ∧ afterExc c (c.set_range a) = c := by
  obtain ⟨m, hm⟩ := check_array_fail a c.get_size 2 'C' h
  simp [Cloud.set_range, hm, inputErr, afterExc]

theorem set_key_invalid (c : Cloud) (a : PyArray) (h : keyValid c a = false) :
    inputErr (c.set_key a) = true ∧ afterExc c (c.set_key a) = c := by
  obtain ⟨m, hm⟩ := check_array_fail a c.get_size 0 'C' h
  simp [Cloud.set_key, hm, inputErr, afterExc]

theorem set_xyz_invalid (c : Cloud) (a : PyArray) (h : xyzValid c a = false) :
    inputErr (c.set_xyz a) = true ∧ afterExc c (c.set_xyz a) = c := by
  obtain ⟨m, hm⟩ := check_array_fail a (c.get_size * 3) 0 'X' h
  simp [Cloud.set_xyz, hm, inputErr, afterExc]

theorem set_mask_invalid (c : Cloud) (a : PyArray) (h : maskValid c a = false) :
    inputErr (c.set_mask a) = true ∧ afterExc c (c.set_mask a) = c := by
  rw [maskValid, Bool.and_eq_false_iff] at h
  rcases h with h | h
  · obtain ⟨m, hm⟩ := check_array_fail a (c.get_size * 4) 0 'C' h
    simp [Cloud.set_mask, hm, inputErr, afterExc]
  · rcases check_array_err_shape a (c.get_size * 4) 0 'C' with hok | ⟨m, hme⟩
    · have hd : a.ndim ≠ 2 ∧ a.ndim ≠ 3 := by simpa using h
      simp [Cloud.set_mask, hok, hd, inputErr, afterExc]
    · simp [Cloud.set_mask, hme, inputErr, afterExc]

theorem set_palette_invalid (c : Cloud) (a : PyArray) (h : paletteValid a = false) :
    inputErr (c.set_palette a) = true ∧ afterExc c (c.set_palette a) = c := by
  rw [paletteValid, Bool.and_eq_false_iff] at h
  rcases h with h | h
  · obtain ⟨m, hm⟩ := check_array_fail a 0 2 'C' h
    simp [Cloud.set_palette, hm, inputErr, afterExc]
  · rcases check_array_err_shape a 0 2 'C' with hok | ⟨m, hme⟩
    · have hd : ¬ a.shapeAt 1 = 3 := by simpa using h
      simp [Cloud.set_palette, hok, hd, inputErr, afterExc]
    · simp [Cloud.set_palette, hme, inputErr, afterExc]

theorem set_image_invalid (im : Image) (a : PyArray) (h : imageValid a = false) :
    inputErr (im.set_image a) = true ∧ afterExc im (im.set_image a) = im := by
  obtain ⟨m, hm⟩ := check_array_fail a 0 2 'C' h
  simp [Image.set_image, hm, inputErr, afterExc]

theorem image_set_mask_invalid (im : Image) (a : PyArray)
    (h : imageMaskValid a = false) :
    inputErr (im.set_mask a) = true ∧ afterExc im (im.set_mask a) = im := by
  rw [imageMaskValid, Bool.and_eq_false_iff] at h
  rcases h with h | h
  · obtain ⟨m, hm⟩ := check_array_fail a 0 3 'C' h
    simp [Image.set_mask, hm, inputErr, afterExc]
  · rcases check_array_err_shape a 0 3 'C' with hok | ⟨m, hme⟩
    · have hd : ¬ a.shapeAt 2 = 4 := by simpa using h
      simp [Image.set_mask, hok, hd, inputErr, afterExc]
    · simp [Image.set_mask, hme, inputErr, afterExc]

theorem set_pose_invalid (c : Cloud) (a : PyArray) (h : poseValid a = false) :
    inputErr (c.set_pose a) = true ∧ afterExc c (c.set_pose a) = c := by
  obtain ⟨m, hm⟩ := check_array_fail a 16 2 'F' h
  simp [Cloud.set_pose, hm, inputErr, afterExc]

theorem set_transform_invalid (cub : Cuboid) (a : PyArray)
    (h : poseValid a = false) :
    inputErr (cub.set_transform a) = true ∧
      afterExc cub (cub.set_transform a) = cub := by
  obtain ⟨m, hm⟩ := check_array_fail a 16 2 'F' h
  simp [Cuboid.set_transform, hm, inputErr, afterExc]

theorem loopAux_vis (flag sig : Nat → Bool) :
    ∀ fuel frames vis f v r,
      loopAux flag sig fuel frames vis = some (f, v, r) → v = vis := by
  intro fuel
  induction fuel with
  | zero =>
    intro frames vis f v r h
    simp [loopAux] at h
  | succ fuel ih =>
    intro frames vis f v r h
    by_cases hf : flag frames = true
    · by_cases hs : sig frames = true
      · simp [loopAux, hf, hs] at h
        exact h.2.1.symm
      · simp [loopAux, hf, hs] at h
        exact ih _ _ _ _ _ h
    · simp [loopAux, hf] at h
      exact h.2.1.symm

theorem loopAux_stop (flag sig : Nat → Bool) (t : Nat)
    (hstop : ∀ u, t ≤ u → flag u = false) :
    ∀ fuel frames vis, frames < t + 10 → t + 10 ≤ frames + 10 * fuel →
      exitsWithin (loopAux flag sig fuel frames vis) (t + 10) = true := by
  intro fuel
  induction fuel with
  | zero =>
    intro frames vis h1 h2
    exfalso
    omega
  | succ fuel ih =>
    intro frames vis h1 h2
    by_cases hf : flag frames = true
    · have hft : frames < t := by
        by_contra hge
        push_neg at hge
        have hflag := hstop frames hge
        rw [hflag] at hf
        exact Bool.false_ne_true hf
      by_cases hs : sig frames = true
      · simp [loopAux, hf, hs, exitsWithin]
        omega
      · simp only [loopAux, hf, hs, if_true, if_false, check_every]
        simp only [Bool.not_eq_true] at hs
        simp [hf, hs]
        exact ih (frames + 10) vis (by omega) (by omega)
    · simp [loopAux, hf, exitsWithin]
      omega

theorem run_of_loop (flag sig : Nat → Bool) (fuel bound : Nat)
    (h : exitsWithin (loopAux flag sig fuel 0 true) bound = true) :
    exitsWithin (run flag sig fuel) bound = true := by
  unfold run
  cases hl : loopAux flag sig fuel 0 true with
  | none =>
    rw [hl] at h
    simp [exitsWithin] at h
  | some x =>
    obtain ⟨f, v, r⟩ := x
    rw [hl] at h
    cases r <;> simpa [exitsWithin] using h

theorem loopAux_exit_inv (flag sig : Nat → Bool) :
    ∀ fuel frames vis, frames % check_every = 0 →
      exitInvariant flag sig (loopAux flag sig fuel frames vis) = true := by
  intro fuel
  induction fuel with
  | zero => intro frames vis h; rfl
  | succ fuel ih =>
    intro frames vis hmod
    by_cases hf : flag frames = true
    · by_cases hs : sig frames = true
      · simp [loopAux, hf, hs, exitInvariant, isCancelled, isNormalExit, hmod]
      · simp only [loopAux, hf, hs, if_true, if_false]
        simp only [Bool.not_eq_true] at hs
        simp [hf, hs]
        exact ih (frames + check_every) vis
          (by simp only [check_every] at hmod ⊢; omega)
    · simp [loopAux, hf, exitInvariant, isCancelled, isNormalExit, hmod]

theorem fillFrom_floats :
    ∀ (vs : List Val) (dst : List Val), vs.length ≤ dst.length →
      fillFrom dst (vs.map PyObj.asFloat) =
        Except.ok (vs ++ dst.drop vs.length) := by
  intro vs
  induction vs with
  | nil => intro dst h; simp [fillFrom]
  | cons v vs ih =>
    intro dst h
    cases dst with
    | nil => simp at h
    | cons d ds =>
      have hih := ih ds (by simpa using h)
      simp [fillFrom, PyObj.castFloat, hih]

theorem fillFrom_bad :
    ∀ (t : List PyObj) (dst : List Val), t.length ≤ dst.length →
      (∃ o ∈ t, o.castFloat = none) →
      fillFrom dst t =
        Except.error (VizErr.typeError "Expected a tuple of floats") := by
  intro t
  induction t with
  | nil => intro dst h hb; simp at hb
  | cons o os ih =>
    intro dst h hb
    cases dst with
    | nil => simp at h
    | cons d ds =>
      cases hco : o.castFloat with
      | none => simp [fillFrom, hco]
      | some v =>
        have hb' : ∃ b ∈ os, PyObj.castFloat b = none := by
          rcases hb with ⟨b, hbm, hbn⟩
          rcases List.mem_cons.mp hbm with rfl | hbm'
          · rw [hco] at hbn; cases hbn
          · exact ⟨b, hbm', hbn⟩
        simp [fillFrom, hco, ih ds (by simpa using h) hb']

theorem checkOk_size (a : PyArray) (s d : Nat) (st : Char) (hs : s ≠ 0)
    (h : checkOk a s d st = true) : a.size = s := by
  rw [checkOk, decide_eq_true_eq] at h
  rcases h.1 with h0 | h1
  · exact absurd h0 hs
  · exact h1

theorem checkOk_size_ne (a : PyArray) (s d : Nat) (st : Char)
    (hne : a.size ≠ s) (hs : s ≠ 0) : checkOk a s d st = false := by
  rw [checkOk, decide_eq_false_iff_not]
  rintro ⟨h1, -⟩
  rcases h1 with h0 | h1
  · exact hs h0
  · exact hne h1

/-- C1: once another thread has set the running flag to false (from completed
frame-step `t` onwards), `run()` terminates — given fuel for at least the
remaining batches — after completing fewer than `t + check_every` frame-steps,
i.e. at most one further batch of `check_every = 10` `run_once` calls beyond
the moment the flag was cleared, because the flag is re-read only between
batches. -/
theorem run_stop_bounded (flag sig : Nat → Bool) (t fuel : Nat)
    (hstop : ∀ u, t ≤ u → flag u = false)
    (hfuel : t + check_every ≤ check_every * fuel) :
    exitsWithin (run flag sig fuel) (t + check_every) = true := by
  simp only [check_every] at hfuel ⊢
  exact run_of_loop flag sig fuel (t + 10)
    (loopAux_stop flag sig t hstop fuel 0 true (by omega) (by omega))

theorem run_stop_bounded_witness :
    exitsWithin (run (fun _ => false) (fun _ => false) 1) (0 + check_every) = true :=
  run_stop_bounded (fun _ => false) (fun _ => false) 0 1 (fun _ _ => rfl) (by decide)

/-- C2: evaluating the structured constructor on metadata whose lookup-table
offset component differs from its direction component shows the divergence:
the cloud's direction vectors come from the table's direction component, but
its offset vectors also come from the direction component (the source reads
`xyz_lut.direction` on both lines), not from the table's offset component as
the spec states. -/
theorem structured_offset_uses_direction :
    (Cloud.initStructured infoBug).direction = (make_xyz_lut infoBug).direction ∧
    (Cloud.initStructured infoBug).offset = (make_xyz_lut infoBug).direction ∧
    (make_xyz_lut infoBug).offset ≠ (make_xyz_lut infoBug).direction ∧
    (Cloud.initStructured infoBug).offset ≠ (make_xyz_lut infoBug).offset := by
  refine ⟨rfl, rfl, by decide, by decide⟩

/-- C3 (amended): for a cloud with `n > 0` points, `set_range` and `set_key`
accept a buffer only when its element count is exactly `n` and reject any
other count; `set_mask` accepts only exactly `4n` elements; and `set_xyz`
accepts only exactly `3n` elements (not `n` as originally claimed). -/
theorem cloud_setter_count_amended (c : Cloud) (a : PyArray) (hn : 0 < c.n) :
    (excOk (c.set_range a) = true → a.size = c.get_size) ∧
    (a.size ≠ c.get_size → excOk (c.set_range a) = false) ∧
    (excOk (c.set_key a) = true → a.size = c.get_size) ∧
    (a.size ≠ c.get_size → excOk (c.set_key a) = false) ∧
    (excOk (c.set_mask a) = true → a.size = c.get_size * 4) ∧
    (a.size ≠ c.get_size * 4 → excOk (c.set_mask a) = false) ∧
    (excOk (c.set_xyz a) = true → a.size = c.get_size * 3) ∧
    (a.size ≠ c.get_size * 3 → excOk (c.set_xyz a) = false) := by
  have hn0 : c.get_size ≠ 0 := by
    unfold Cloud.get_size
    omega
  have hn4 : c.get_size * 4 ≠ 0 := by omega
  have hn3 : c.get_size * 3 ≠ 0 := by omega
  refine ⟨?_, ?_, ?_, ?_, ?_, ?_, ?_, ?_⟩
  · intro h
    exact checkOk_size a c.get_size 2 'C' hn0 ((set_range_ok_iff c a).mp h)
  · intro h
    apply Bool.eq_false_iff.mpr
    intro hk
    have hc := (set_range_ok_iff c a).mp hk
    rw [checkOk_size_ne a c.get_size 2 'C' h hn0] at hc
    exact Bool.false_ne_true hc
  · intro h
    exact checkOk_size a c.get_size 0 'C' hn0 ((set_key_ok_iff c a).mp h)
  · intro h
    apply Bool.eq_false_iff.mpr
    intro hk
    have hc := (set_key_ok_iff c a).mp hk
    rw [checkOk_size_ne a c.get_size 0 'C' h hn0] at hc
    exact Bool.false_ne_true hc
  · intro h
    exact checkOk_size a (c.get_size * 4) 0 'C' hn4 ((set_mask_ok_iff c a).mp h).1
  · intro h
    apply Bool.eq_false_iff.mpr
    intro hk
    have hc := ((set_mask_ok_iff c a).mp hk).1
    rw [checkOk_size_ne a (c.get_size * 4) 0 'C' h hn4] at hc
    exact Bool.false_ne_true hc
  · intro h
    exact checkOk_size a (c.get_size * 3) 0 'X' hn3 ((set_xyz_ok_iff c a).mp h)
  · intro h
    apply Bool.eq_false_iff.mpr
    intro hk
    have hc := (set_xyz_ok_iff c a).mp hk
    rw [checkOk_size_ne a (c.get_size * 3) 0 'X' h hn3] at hc
    exact Bool.false_ne_true hc

theorem cloud_setter_count_witness :
    excOk (cloudW.set_range arrOdd) = false ∧
    excOk (cloudW.set_key arrOdd) = false ∧
    excOk (cloudW.set_mask arrOdd) = false ∧
    excOk (cloudW.set_xyz arrOdd) = false :=
  ⟨(cloud_setter_count_amended cloudW arrOdd (by decide)).2.1 (by decide),
   (cloud_setter_count_amended cloudW arrOdd (by decide)).2.2.2.1 (by decide),
   (cloud_setter_count_amended cloudW arrOdd (by decide)).2.2.2.2.2.1 (by decide),
   (cloud_setter_count_amended cloudW arrOdd (by decide)).2.2.2.2.2.2.2 (by decide)⟩

/-- C3 (counterexample): on a one-point cloud, `set_xyz` accepts a buffer of
3 elements, whose count differs from `n = 1` — refuting "accepted only when
the element count is exactly `n`". -/
theorem cloud_set_xyz_count_cex :
    excOk (cloud1.set_xyz arrXyz3) = true ∧ arrXyz3.size ≠ cloud1.get_size := by
  decide

/-- C4: for every buffer-accepting setter — Cloud `set_range`/`set_key`/
`set_mask`/`set_xyz`/`set_pose`/`set_palette`, Image `set_image`/`set_mask`,
and Cuboid `set_transform` — a buffer that fails that setter's validation
produces a synchronous `std::invalid_argument` and the receiving object is
exactly what it was before the call (validation precedes any mutation;
errors leave no partial writes). -/
theorem setter_invalid_rejected (c : Cloud) (im : Image) (cub : Cuboid)
    (a : PyArray) :
    (rangeValid c a = false →
      inputErr (c.set_range a) = true ∧ afterExc c (c.set_range a) = c) ∧
    (keyValid c a = false →
      inputErr (c.set_key a) = true ∧ afterExc c (c.set_key a) = c) ∧
    (maskValid c a = false →
      inputErr (c.set_mask a) = true ∧ afterExc c (c.set_mask a) = c) ∧
    (xyzValid c a = false →
      inputErr (c.set_xyz a) = true ∧ afterExc c (c.set_xyz a) = c) ∧
    (poseValid a = false →
      inputErr (c.set_pose a) = true ∧ afterExc c (c.set_pose a) = c) ∧
    (paletteValid a = false →
      inputErr (c.set_palette a) = true ∧ afterExc c (c.set_palette a) = c) ∧
    (imageValid a = false →
      inputErr (im.set_image a) = true ∧ afterExc im (im.set_image a) = im) ∧
    (imageMaskValid a = false →
      inputErr (im.set_mask a) = true ∧ afterExc im (im.set_mask a) = im) ∧
    (poseValid a = false →
      inputErr (cub.set_transform a) = true ∧
        afterExc cub (cub.set_transform a) = cub) :=
  ⟨set_range_invalid c a, set_key_invalid c a, set_mask_invalid c a,
   set_xyz_invalid c a, set_pose_invalid c a, set_palette_invalid c a,
   set_image_invalid im a, image_set_mask_invalid im a,
   set_transform_invalid cub a⟩

theorem setter_invalid_rejected_witness :
    (inputErr (cloudW.set_range arrOdd) = true ∧
      afterExc cloudW (cloudW.set_range arrOdd) = cloudW) ∧
    (inputErr (cloudW.set_key arrOdd) = true ∧
      afterExc cloudW (cloudW.set_key arrOdd) = cloudW) ∧
    (inputErr (cloudW.set_mask arrOdd) = true ∧
      afterExc cloudW (cloudW.set_mask arrOdd) = cloudW) ∧
    (inputErr (cloudW.set_xyz arrOdd) = true ∧
      afterExc cloudW (cloudW.set_xyz arrOdd) = cloudW) ∧
    (inputErr (cloudW.set_pose arrOdd) = true ∧
      afterExc cloudW (cloudW.set_pose arrOdd) = cloudW) ∧
    (inputErr (cloudW.set_palette arrOdd) = true ∧
      afterExc cloudW (cloudW.set_palette arrOdd) = cloudW) ∧
    (inputErr (imageW.set_image arrOdd) = true ∧
      afterExc imageW (imageW.set_image arrOdd) = imageW) ∧
    (inputErr (imageW.set_mask arrOdd) = true ∧
      afterExc imageW (imageW.set_mask arrOdd) = imageW) ∧
    (inputErr (cuboid0.set_transform arrOdd) = true ∧
      afterExc cuboid0 (cuboid0.set_transform arrOdd) = cuboid0) :=
  ⟨(setter_invalid_rejected cloudW imageW cuboid0 arrOdd).1 (by decide),
   (setter_invalid_rejected cloudW imageW cuboid0 arrOdd).2.1 (by decide),
   (setter_invalid_rejected cloudW imageW cuboid0 arrOdd).2.2.1 (by decide),
   (setter_invalid_rejected cloudW imageW cuboid0 arrOdd).2.2.2.1 (by decide),
   (setter_invalid_rejected cloudW imageW cuboid0 arrOdd).2.2.2.2.1 (by decide),
   (setter_invalid_rejected cloudW imageW cuboid0 arrOdd).2.2.2.2.2.1 (by decide),
   (setter_invalid_rejected cloudW imageW cuboid0 arrOdd).2.2.2.2.2.2.1 (by decide),
   (setter_invalid_rejected cloudW imageW cuboid0 arrOdd).2.2.2.2.2.2.2.1 (by decide),
   (setter_invalid_rejected cloudW imageW cuboid0 arrOdd).2.2.2.2.2.2.2.2 (by decide)⟩

/-- C5 (amended): `run()` exits only at batch boundaries (a multiple of
`check_every` completed frame-steps); at the exit boundary it exits with the
cancellation outcome exactly when the running flag still read true and a
signal was pending, and it exits normally exactly when the flag read false —
at such a boundary the signal check is skipped entirely. -/
theorem run_exit_invariant (flag sig : Nat → Bool) (fuel : Nat) :
    exitInvariant flag sig (run flag sig fuel) = true := by
  have h := loopAux_exit_inv flag sig fuel 0 true (by simp)
  unfold run
  cases hl : loopAux flag sig fuel 0 true with
  | none => rfl
  | some x =>
    obtain ⟨f, v, r⟩ := x
    rw [hl] at h
    cases r
    · simpa [exitInvariant] using h
    · simpa [exitInvariant] using h

/-- C5 (counterexample): with a signal pending at the very first batch
boundary but the running flag already false there, `run()` returns normally —
the pending cancellation is not observed and not propagated, refuting the
unconditional claim. -/
theorem run_signal_skipped_cex :
    run (fun _ => false) (fun _ => true) 1 = some (0, false, RunExit.normal) ∧
    (fun _ => true : Nat → Bool) 0 = true ∧
    isCancelled RunExit.normal = false :=
  ⟨rfl, rfl, rfl⟩

/-- C6: `Cuboid.set_rgba` with a tuple of more than 4 elements fails with an
input error and leaves the color unchanged; a tuple of at most 4 float
components succeeds, with the missing components filled from the documented
default `(0, 0, 0, 1)` — in particular a 3-tuple yields alpha 1. -/
theorem cuboid_rgba_defaults (cub : Cuboid) (t : List PyObj) (vs : List Val) :
    (4 < t.length →
      inputErr (cub.set_rgba t) = true ∧ afterExc cub (cub.set_rgba t) = cub) ∧
    (vs.length ≤ 4 →
      cub.set_rgba (vs.map PyObj.asFloat) =
        Except.ok { cub with rgba := vs ++ rgbaDefault.drop vs.length }) ∧
    (vs.length = 3 →
      (afterExc cub (cub.set_rgba (vs.map PyObj.asFloat))).rgba.getD 3 0 = 1) := by
  refine ⟨?_, ?_, ?_⟩
  · intro h
    unfold Cuboid.set_rgba tuple_to_float_array
    have hlen : rgbaDefault.length < t.length := by
      simp only [rgbaDefault, List.length_cons, List.length_nil]
      omega
    rw [if_pos hlen]
    constructor <;> rfl
  · intro h
    unfold Cuboid.set_rgba tuple_to_float_array
    have hlen : ¬ rgbaDefault.length < (vs.map PyObj.asFloat).length := by
      simp only [rgbaDefault, List.length_map, List.length_cons, List.length_nil]
      omega
    rw [if_neg hlen,
      fillFrom_floats vs rgbaDefault
        (by simp only [rgbaDefault, List.length_cons, List.length_nil]; omega)]
  · intro h3
    rcases vs with _ | ⟨x, vs⟩
    · simp only [List.length_nil] at h3
      omega
    rcases vs with _ | ⟨y, vs⟩
    · simp only [List.length_cons, List.length_nil] at h3
      omega
    rcases vs with _ | ⟨z, vs⟩
    · simp only [List.length_cons, List.length_nil] at h3
      omega
    rcases vs with _ | ⟨w, vs⟩
    · rfl
    · simp only [List.length_cons] at h3
      omega

theorem cuboid_rgba_defaults_witness :
    (inputErr (cuboid0.set_rgba tup5) = true ∧
      afterExc cuboid0 (cuboid0.set_rgba tup5) = cuboid0) ∧
    cuboid0.set_rgba (vals3.map PyObj.asFloat) =
      Except.ok { cuboid0 with rgba := vals3 ++ rgbaDefault.drop vals3.length } ∧
    (afterExc cuboid0 (cuboid0.set_rgba (vals3.map PyObj.asFloat))).rgba.getD 3 0 = 1 :=
  ⟨(cuboid_rgba_defaults cuboid0 tup5 vals3).1 (by decide),
   (cuboid_rgba_defaults cuboid0 tup5 vals3).2.1 (by decide),
   (cuboid_rgba_defaults cuboid0 tup5 vals3).2.2 (by decide)⟩

/-- C7: `set_palette` accepts a buffer only when it is two-dimensional with
second dimension exactly 3; any other dimensionality, or a second dimension
other than 3, is rejected with an error. -/
theorem palette_shape_ok (c : Cloud) (a : PyArray) :
    (excOk (c.set_palette a) = true → a.ndim = 2 ∧ a.shapeAt 1 = 3) ∧
    (a.ndim ≠ 2 ∨ a.shapeAt 1 ≠ 3 → excOk (c.set_palette a) = false) := by
  constructor
  · intro h
    obtain ⟨hc, hs⟩ := (set_palette_ok_iff c a).mp h
    rw [checkOk, decide_eq_true_eq] at hc
    rcases hc.2.1 with h0 | h2
    · exact absurd h0 (by omega)
    · exact ⟨h2, hs⟩
  · intro hd
    apply Bool.eq_false_iff.mpr
    intro hk
    obtain ⟨hc, hs⟩ := (set_palette_ok_iff c a).mp hk
    rw [checkOk, decide_eq_true_eq] at hc
    rcases hd with hd | hd
    · rcases hc.2.1 with h0 | h2
      · exact absurd h0 (by omega)
      · exact hd h2
    · exact hd hs

theorem palette_shape_witness :
    excOk (cloudW.set_palette arrPalBad) = false :=
  (palette_shape_ok cloudW arrPalBad).2 (by decide)

/-- C8 (amended): for every color-accepting operation, a tuple of at most 4
elements containing a component that does not cast to float raises the type
error synchronously and leaves the receiving object's color unchanged (for
construction, given a valid pose array); tuples longer than 4 raise the size
input error before any cast is attempted. -/
theorem color_cast_type_error (cub : Cuboid) (lab : Label) (t : List PyObj)
    (hlen : t.length ≤ 4) (hbad : ∃ o ∈ t, o.castFloat = none) :
    (cub.set_rgba t = Except.error (VizErr.typeError "Expected a tuple of floats") ∧
      afterExc cub (cub.set_rgba t) = cub) ∧
    (lab.set_rgba t = Except.error (VizErr.typeError "Expected a tuple of floats") ∧
      afterExc lab (lab.set_rgba t) = lab) ∧
    ∀ pose : PyArray, check_array pose 16 2 'F' = Except.ok () →
      Cuboid.init pose t =
        Except.error (VizErr.typeError "Expected a tuple of floats") := by
  have hff := fillFrom_bad t rgbaDefault
    (by simp only [rgbaDefault, List.length_cons, List.length_nil]; omega) hbad
  have htt : tuple_to_float_array rgbaDefault t =
      Except.error (VizErr.typeError "Expected a tuple of floats") := by
    unfold tuple_to_float_array
    rw [if_neg (by
        simp only [rgbaDefault, List.length_cons, List.length_nil]
        omega),
      hff]
  refine ⟨⟨?_, ?_⟩, ⟨?_, ?_⟩, ?_⟩
  · simp [Cuboid.set_rgba, htt]
  · simp [Cuboid.set_rgba, htt, afterExc]
  · simp [Label.set_rgba, htt]
  · simp [Label.set_rgba, htt, afterExc]
  · intro pose hp
    simp [Cuboid.init, hp, htt]

theorem color_cast_type_error_witness :
    (cuboid0.set_rgba tupBad1 =
        Except.error (VizErr.typeError "Expected a tuple of floats") ∧
      afterExc cuboid0 (cuboid0.set_rgba tupBad1) = cuboid0) ∧
    (label0.set_rgba tupBad1 =
        Except.error (VizErr.typeError "Expected a tuple of floats") ∧
      afterExc label0 (label0.set_rgba tupBad1) = label0) ∧
    Cuboid.init pose0 tupBad1 =
      Except.error (VizErr.typeError "Expected a tuple of floats") := by
  have h := color_cast_type_error cuboid0 label0 tupBad1 (by decide) (by decide)
  exact ⟨h.1, h.2.1, h.2.2 pose0 rfl⟩

/-- C8 (counterexample): a 5-tuple containing a component that does not cast
to float raises the tuple-size input error, not the type error — the length
check precedes any cast — refuting the unconditional claim. -/
theorem color_cast_oversize_cex :
    (tupBad5.any fun o => o.castFloat.isNone) = true ∧
    typeErr (cuboid0.set_rgba tupBad5) = false ∧
    inputErr (cuboid0.set_rgba tupBad5) = true := by
  decide

/-- C9: the window-visibility flag that `run()` sets true at entry is still
true when `run()` exits by cancellation — the trailing `visible(false)` call
runs only on the normal exit path, where the final visibility is false. -/
theorem run_visible_invariant (flag sig : Nat → Bool) (fuel : Nat) :
    visibleInvariant (run flag sig fuel) = true := by
  unfold run
  cases hl : loopAux flag sig fuel 0 true with
  | none => rfl
  | some x =>
    obtain ⟨f, v, r⟩ := x
    have hv := loopAux_vis flag sig fuel 0 true f v r hl
    cases r
    · simp [visibleInvariant, isCancelled]
    · simp [visibleInvariant, isCancelled, hv]

/-- C10 (amended): `set_range` accepts only two-dimensional, C-contiguous
arrays, and — when the cloud has a nonzero point count — only arrays of
exactly `n` elements; an array that is not 2-dimensional (in particular a 1-d
array holding exactly `n` range values) is always rejected. -/
theorem set_range_shape_amended (c : Cloud) (a : PyArray) :
    (excOk (c.set_range a) = true →
      a.ndim = 2 ∧ a.cContig = true ∧ (c.get_size ≠ 0 → a.size = c.get_size)) ∧
    (a.ndim ≠ 2 → excOk (c.set_range a) = false) := by
  constructor
  · intro h
    have hc := (set_range_ok_iff c a).mp h
    rw [checkOk, decide_eq_true_eq] at hc
    obtain ⟨h1, h2, h3, h4⟩ := hc
    refine ⟨?_, h4 rfl, ?_⟩
    · rcases h2 with h0 | h2
      · exact absurd h0 (by omega)
      · exact h2
    · intro hs
      rcases h1 with h0 | h1
      · exact absurd h0 hs
      · exact h1
  · intro hd
    apply Bool.eq_false_iff.mpr
    intro hk
    have hc := (set_range_ok_iff c a).mp hk
    rw [checkOk, decide_eq_true_eq] at hc
    rcases hc.2.1 with h0 | h2
    · exact absurd h0 (by omega)
    · exact hd h2

theorem set_range_shape_witness :
    excOk (cloudW.set_range arrRow2) = false :=
  (set_range_shape_amended cloudW arrRow2).2 (by decide)

/-- C10 (counterexample): a cloud constructed with `n = 0` accepts a 2-d
C-contiguous array of 6 elements in `set_range` — the size check is disabled
when the expected size is 0 — refuting "of exactly `n` elements" for every
cloud. -/
theorem set_range_zero_size_cex :
    excOk (cloud0.set_range arr23) = true ∧ arr23.size ≠ cloud0.get_size := by
  decide

end Viz
